import Mathlib

/-!
Verification of the battery watcher core: percentage validation, breakpoint
classification, the level-transition decision table, notification shaping,
and the watcher tick. Definitions are shallow embeddings of the Rust source
under `src/`.
-/

set_option maxRecDepth 4000

/-- Embeds `BatteryLevel` from `src/battery/level.rs`:
describes roughly the amount of charge in a battery. -/
inductive BatteryLevel where
  | Unknown
  | Critical
  | Low
  | Regular
  | High
  | Full
deriving DecidableEq, Repr, Fintype

/-- `impl Default for BatteryLevel` in `src/battery/level.rs`. -/
def BatteryLevel.default : BatteryLevel := .Unknown

/-- Embeds `BatteryStatus` from `src/battery/status.rs`.
The `Unknown` variant carries an optional detail string. -/
inductive BatteryStatus where
  | Unknown (detail : Option String)
  | Critical
  | Low
  | High
  | Full
deriving DecidableEq, Repr

/-- Embeds `BatteryLevel::transition` from `src/battery/level.rs` lines 27-47.
The Rust `match` arms are translated in order; the first `if self == to`
guard returns `none`. The Rust source writes `Some(BatteryStatus::Unknown)`
for a statusless unknown, embedded as `BatteryStatus.Unknown none`. -/
def BatteryLevel.transition (self next : BatteryLevel) : Option BatteryStatus :=
  if self = next then
    none
  else
    match self, next with
    | _, .Unknown => some (.Unknown none)
    | _, .Critical => some .Critical
    | .Critical, .Low => none
    | _, .Low => some .Low
    | .Full, .High => none
    | _, .High => some .High
    | _, .Full => some .Full
    | _, _ => none

/-- Embeds `ValidationError` from `src/validate.rs`. -/
inductive ValidationError where
  | GreaterThanZero
  | Max (m : Nat)
  | Order (l r : Nat)
  | Required (name : String)
deriving DecidableEq, Repr

/-- Embeds `Error` from `src/error.rs`. The `Io` and `Parse` payloads
(`io::Error`, `num::ParseIntError`) are modelled as message strings. -/
inductive Error where
  | Io (msg : String)
  | Parse (msg : String)
  | Validation (e : ValidationError)
deriving DecidableEq, Repr

/-- Embeds `validate::max` from `src/validate.rs`:
`ensure!(actual <= limit, ValidationError::Max(limit))`. -/
def validate.max (limit actual : Nat) : Except ValidationError Unit :=
  if actual ≤ limit then .ok () else .error (.Max limit)

/-- Embeds `validate::order` from `src/validate.rs` lines 126-129:
`ensure!(left < right, ValidationError::Order(left, right))`. -/
def validate.order (left right : Nat) : Except ValidationError Unit :=
  if left < right then .ok () else .error (.Order left right)

/-- Embeds `Percentage` from `src/battery/percentage.rs`: a newtype over
`u8` (modelled as `Nat`; every value the program builds is at most 255). -/
structure Percentage where
  val : Nat
deriving DecidableEq, Repr

/-- `Percentage::MAX` from `src/battery/percentage.rs`. -/
def Percentage.MAX : Nat := 100

/-- Embeds `Percentage::new` from `src/battery/percentage.rs` lines 15-18:
validates `val` against `MAX` and wraps it. -/
def Percentage.new (v : Nat) : Except Error Percentage :=
  match validate.max Percentage.MAX v with
  | .ok _ => .ok ⟨v⟩
  | .error e => .error (.Validation e)

/-- Models Rust `str::trim`: drops whitespace from both ends. -/
def strTrim (cs : List Char) : List Char :=
  ((cs.dropWhile Char.isWhitespace).reverse.dropWhile Char.isWhitespace).reverse

/-- Models Rust `str::parse::<u8>` as used by `TryFrom<String> for
Percentage`: an optional leading plus sign, then decimal digits only, with
the value required to fit in `u8` (at most 255). Any other character,
including a minus sign, a dot or hex digits, is a parse error. -/
def u8FromStr (cs : List Char) : Except Error Nat :=
  let digits := match cs with
    | '+' :: rest => rest
    | _ => cs
  if digits.isEmpty then
    .error (.Parse "cannot parse integer from empty string")
  else if digits.all (fun c => c.isDigit) then
    let v := digits.foldl (fun acc c => acc * 10 + (c.toNat - 48)) 0
    if v ≤ 255 then .ok v
    else .error (.Parse "number too large to fit in target type")
  else
    .error (.Parse "invalid digit found in string")

/-- Embeds `TryFrom<String> for Percentage` from
`src/battery/percentage.rs` lines 33-40: `s.trim().parse::<u8>()` then
`Percentage::new`. -/
def Percentage.tryFromString (s : String) : Except Error Percentage :=
  match u8FromStr (strTrim s.toList) with
  | .ok v => Percentage.new v
  | .error e => .error e

/-- Embeds `Breakpoints` from `src/battery/percentage.rs`. -/
structure Breakpoints where
  critical : Percentage
  low : Percentage
  high : Percentage
  full : Percentage
deriving DecidableEq, Repr

/-- Embeds `Breakpoints::new` from `src/battery/percentage.rs` lines
93-104: the three `validate::order` checks run first, in the order
critical/low, low/high, high/full, then each mark is validated by
`Percentage::new`; each `?` is an early return. -/
def Breakpoints.new (critical low high full : Nat) : Except Error Breakpoints :=
  match validate.order critical low with
  | .error e => .error (.Validation e)
  | .ok _ =>
    match validate.order low high with
    | .error e => .error (.Validation e)
    | .ok _ =>
      match validate.order high full with
      | .error e => .error (.Validation e)
      | .ok _ =>
        match Percentage.new critical with
        | .error e => .error e
        | .ok c =>
          match Percentage.new low with
          | .error e => .error e
          | .ok l =>
            match Percentage.new high with
            | .error e => .error e
            | .ok h =>
              match Percentage.new full with
              | .error e => .error e
              | .ok f => .ok ⟨c, l, h, f⟩

/-- Embeds `Breakpoints::get_level` from `src/battery/percentage.rs` lines
107-119; the derived `PartialOrd` on `Percentage` compares the wrapped
values. -/
def Breakpoints.get_level (self : Breakpoints) (percentage : Percentage) :
    BatteryLevel :=
  if percentage.val ≤ self.critical.val then .Critical
  else if percentage.val ≤ self.low.val then .Low
  else if percentage.val < self.high.val then .Regular
  else if percentage.val < self.full.val then .High
  else .Full

/-- C1: Hysteresis asymmetry of the transition policy:
`transition Critical Low = none` and `transition Full High = none`, while for
every previous level `X` outside {Low, Critical}, `transition X Low = some Low`,
and for every previous level `X` outside {High, Full},
`transition X High = some High`. -/
theorem transition_hysteresis_asymmetry :
    BatteryLevel.transition .Critical .Low = none ∧
    BatteryLevel.transition .Full .High = none ∧
    (∀ X : BatteryLevel, X ≠ .Low → X ≠ .Critical →
      BatteryLevel.transition X .Low = some .Low) ∧
    (∀ X : BatteryLevel, X ≠ .High → X ≠ .Full →
      BatteryLevel.transition X .High = some .High) := by
  refine ⟨rfl, rfl, ?_, ?_⟩ <;> decide

/-- Witness for C1: instantiates the quantified parts at `Regular`. -/
theorem transition_hysteresis_asymmetry_witness :
    BatteryLevel.transition .Regular .Low = some .Low ∧
    BatteryLevel.transition .Regular .High = some .High :=
  ⟨transition_hysteresis_asymmetry.2.2.1 .Regular (by decide) (by decide),
   transition_hysteresis_asymmetry.2.2.2 .Regular (by decide) (by decide)⟩

/-- C3: for every previous level, `transition previous Unknown` is
`some (Unknown)` exactly when `previous ≠ Unknown`; when
`previous = Unknown` the self-transition rule dominates and the result
is `none`. -/
theorem transition_to_unknown :
    ∀ previous : BatteryLevel,
      (previous ≠ .Unknown →
        BatteryLevel.transition previous .Unknown = some (.Unknown none)) ∧
      (previous = .Unknown →
        BatteryLevel.transition previous .Unknown = none) := by
  decide

/-- Witness for C3: instantiates at `Regular` and at `Unknown`. -/
theorem transition_to_unknown_witness :
    BatteryLevel.transition .Regular .Unknown = some (.Unknown none) ∧
    BatteryLevel.transition .Unknown .Unknown = none :=
  ⟨(transition_to_unknown .Regular).1 (by decide),
   (transition_to_unknown .Unknown).2 rfl⟩

/-- C4: the unconditional rows of the decision table: every self transition
is `none`; every differing previous level transitions into `Critical` with
`some Critical` and into `Full` with `some Full`; and a transition into
`Regular` is always `none`. -/
theorem transition_unconditional_rows :
    (∀ L : BatteryLevel, BatteryLevel.transition L L = none) ∧
    (∀ previous : BatteryLevel, previous ≠ .Critical →
      BatteryLevel.transition previous .Critical = some .Critical) ∧
    (∀ previous : BatteryLevel, previous ≠ .Full →
      BatteryLevel.transition previous .Full = some .Full) ∧
    (∀ previous : BatteryLevel,
      BatteryLevel.transition previous .Regular = none) := by
  refine ⟨?_, ?_, ?_, ?_⟩ <;> decide

/-- Witness for C4: instantiates the hypothetical parts at `Regular`
and `Low`. -/
theorem transition_unconditional_rows_witness :
    BatteryLevel.transition .Regular .Critical = some .Critical ∧
    BatteryLevel.transition .Low .Full = some .Full :=
  ⟨transition_unconditional_rows.2.1 .Regular (by decide),
   transition_unconditional_rows.2.2.1 .Low (by decide)⟩

/-- C2: for every valid Breakpoints configuration and every Percentage in
[0,100], `get_level` follows the five bands of the spec, and for the
concrete configuration `new 0 1 3 4` the values 0..4 classify to
Critical, Low, Regular, High, Full. -/
theorem get_level_bands :
    (∀ (b : Breakpoints) (v : Percentage),
      b.critical.val < b.low.val → b.low.val < b.high.val →
      b.high.val < b.full.val → v.val ≤ 100 →
      (v.val ≤ b.critical.val → b.get_level v = .Critical) ∧
      (b.critical.val < v.val → v.val ≤ b.low.val → b.get_level v = .Low) ∧
      (b.low.val < v.val → v.val < b.high.val → b.get_level v = .Regular) ∧
      (b.high.val ≤ v.val → v.val < b.full.val → b.get_level v = .High) ∧
      (b.full.val ≤ v.val → b.get_level v = .Full)) ∧
    Breakpoints.new 0 1 3 4 = .ok ⟨⟨0⟩, ⟨1⟩, ⟨3⟩, ⟨4⟩⟩ ∧
    (⟨⟨0⟩, ⟨1⟩, ⟨3⟩, ⟨4⟩⟩ : Breakpoints).get_level ⟨0⟩ = .Critical ∧
    (⟨⟨0⟩, ⟨1⟩, ⟨3⟩, ⟨4⟩⟩ : Breakpoints).get_level ⟨1⟩ = .Low ∧
    (⟨⟨0⟩, ⟨1⟩, ⟨3⟩, ⟨4⟩⟩ : Breakpoints).get_level ⟨2⟩ = .Regular ∧
    (⟨⟨0⟩, ⟨1⟩, ⟨3⟩, ⟨4⟩⟩ : Breakpoints).get_level ⟨3⟩ = .High ∧
    (⟨⟨0⟩, ⟨1⟩, ⟨3⟩, ⟨4⟩⟩ : Breakpoints).get_level ⟨4⟩ = .Full := by
  refine ⟨?_, rfl, by decide, by decide, by decide, by decide, by decide⟩
  intro b v _ _ _ _
  simp only [Breakpoints.get_level]
  refine ⟨?_, ?_, ?_, ?_, ?_⟩ <;> intros <;> split_ifs <;> first | rfl | omega

/-- Witness for C2: the quantified part applied to the configuration
`(10, 13, 94, 97)` at value 50, landing in the Regular band. -/
theorem get_level_bands_witness :
    (⟨⟨10⟩, ⟨13⟩, ⟨94⟩, ⟨97⟩⟩ : Breakpoints).get_level ⟨50⟩ = .Regular :=
  ((get_level_bands.1 ⟨⟨10⟩, ⟨13⟩, ⟨94⟩, ⟨97⟩⟩ ⟨50⟩ (by decide) (by decide)
    (by decide) (by decide)).2.2.1) (by decide) (by decide)

/-- C6: `Percentage.new v` succeeds exactly when `v ≤ 100` and otherwise
fails with the out-of-range `Max 100` validation error; parsing from text
trims whitespace, parses a non-negative integer and delegates to `new`:
`" 99 "` and `"\t100\n"` are accepted, `"foo"`, `"-1"`, `"1.23"` and
`"0xFF"` fail as parse errors, `"101"` and `"255"` fail out of range. -/
theorem percentage_new_and_parse :
    (∀ v : Nat, (∃ p, Percentage.new v = .ok p) ↔ v ≤ 100) ∧
    (∀ v : Nat, 100 < v →
      Percentage.new v = .error (.Validation (.Max 100))) ∧
    Percentage.tryFromString " 99 " = .ok ⟨99⟩ ∧
    Percentage.tryFromString "\t100\n" = .ok ⟨100⟩ ∧
    Percentage.tryFromString "foo" =
      .error (.Parse "invalid digit found in string") ∧
    Percentage.tryFromString "-1" =
      .error (.Parse "invalid digit found in string") ∧
    Percentage.tryFromString "1.23" =
      .error (.Parse "invalid digit found in string") ∧
    Percentage.tryFromString "0xFF" =
      .error (.Parse "invalid digit found in string") ∧
    Percentage.tryFromString "101" = .error (.Validation (.Max 100)) ∧
    Percentage.tryFromString "255" = .error (.Validation (.Max 100)) := by
  refine ⟨?_, ?_, rfl, rfl, rfl, rfl, rfl, rfl, rfl, rfl⟩
  · intro v
    simp only [Percentage.new, validate.max, Percentage.MAX]
    split_ifs with h <;> simp [h]
  · intro v h
    simp only [Percentage.new, validate.max, Percentage.MAX]
    rw [if_neg (by omega)]

/-- Witness for C6: the quantified parts applied at 42 and 101. -/
theorem percentage_new_and_parse_witness :
    (∃ p, Percentage.new 42 = .ok p) ∧
    Percentage.new 101 = .error (.Validation (.Max 100)) :=
  ⟨(percentage_new_and_parse.1 42).mpr (by decide),
   percentage_new_and_parse.2.1 101 (by decide)⟩

/-- C5: `Breakpoints.new c l h f` succeeds exactly when `c < l < h < f`
and all four marks are at most 100; on a strict-ordering violation it
fails with the `Order` error naming the first violated pair, checking
critical/low, then low/high, then high/full; the five concrete inputs of
the spec are all rejected. -/
theorem breakpoints_new_spec :
    (∀ c l h f : Nat,
      (∃ b, Breakpoints.new c l h f = .ok b) ↔
        (c < l ∧ l < h ∧ h < f ∧ c ≤ 100 ∧ l ≤ 100 ∧ h ≤ 100 ∧ f ≤ 100)) ∧
    (∀ c l h f : Nat, ¬ c < l →
      Breakpoints.new c l h f = .error (.Validation (.Order c l))) ∧
    (∀ c l h f : Nat, c < l → ¬ l < h →
      Breakpoints.new c l h f = .error (.Validation (.Order l h))) ∧
    (∀ c l h f : Nat, c < l → l < h → ¬ h < f →
      Breakpoints.new c l h f = .error (.Validation (.Order h f))) ∧
    Breakpoints.new 0 0 0 0 = .error (.Validation (.Order 0 0)) ∧
    Breakpoints.new 2 1 3 4 = .error (.Validation (.Order 2 1)) ∧
    Breakpoints.new 1 3 2 4 = .error (.Validation (.Order 3 2)) ∧
    Breakpoints.new 1 2 4 3 = .error (.Validation (.Order 4 3)) ∧
    Breakpoints.new 101 102 103 104 = .error (.Validation (.Max 100)) := by
  refine ⟨?_, ?_, ?_, ?_, rfl, rfl, rfl, rfl, rfl⟩
  · intro c l h f
    simp only [Breakpoints.new, validate.order, Percentage.new, validate.max,
      Percentage.MAX]
    split_ifs <;> simp_all
  · intro c l h f hcl
    simp only [Breakpoints.new, validate.order, if_neg hcl]
  · intro c l h f hcl hlh
    simp only [Breakpoints.new, validate.order, if_pos hcl, if_neg hlh]
  · intro c l h f hcl hlh hhf
    simp only [Breakpoints.new, validate.order, if_pos hcl, if_pos hlh,
      if_neg hhf]

/-- Witness for C5: the quantified parts applied to the default
configuration `(10, 13, 94, 97)` and to ordering violations. -/
theorem breakpoints_new_spec_witness :
    (∃ b, Breakpoints.new 10 13 94 97 = .ok b) ∧
    Breakpoints.new 5 5 6 7 = .error (.Validation (.Order 5 5)) ∧
    Breakpoints.new 5 6 6 7 = .error (.Validation (.Order 6 6)) ∧
    Breakpoints.new 5 6 7 7 = .error (.Validation (.Order 7 7)) :=
  ⟨(breakpoints_new_spec.1 10 13 94 97).mpr (by decide),
   breakpoints_new_spec.2.1 5 5 6 7 (by decide),
   breakpoints_new_spec.2.2.1 5 6 6 7 (by decide) (by decide),
   breakpoints_new_spec.2.2.2.1 5 6 7 7 (by decide) (by decide) (by decide)⟩

/-- Ranks the five charge bands in the order
Critical < Low < Regular < High < Full; `Unknown` is above them all and is
never produced by classification. -/
def levelRank : BatteryLevel → Nat
  | .Critical => 0
  | .Low => 1
  | .Regular => 2
  | .High => 3
  | .Full => 4
  | .Unknown => 5

/-- C10: classification never yields `Unknown`, and `get_level` is
monotone with respect to the band order
Critical < Low < Regular < High < Full. -/
theorem get_level_range_and_mono :
    (∀ (b : Breakpoints) (p : Percentage), b.get_level p ≠ .Unknown) ∧
    (∀ (b : Breakpoints) (p q : Percentage), p.val ≤ q.val →
      levelRank (b.get_level p) ≤ levelRank (b.get_level q)) := by
  constructor
  · intro b p
    simp only [Breakpoints.get_level]
    split_ifs <;> simp
  · intro b p q hpq
    simp only [Breakpoints.get_level]
    split_ifs <;> simp only [levelRank] <;> omega

/-- Witness for C10: instantiates both parts at the configuration
`(10, 13, 94, 97)` with values 20 and 95. -/
theorem get_level_range_and_mono_witness :
    (⟨⟨10⟩, ⟨13⟩, ⟨94⟩, ⟨97⟩⟩ : Breakpoints).get_level ⟨20⟩ ≠ .Unknown ∧
    levelRank ((⟨⟨10⟩, ⟨13⟩, ⟨94⟩, ⟨97⟩⟩ : Breakpoints).get_level ⟨20⟩) ≤
      levelRank ((⟨⟨10⟩, ⟨13⟩, ⟨94⟩, ⟨97⟩⟩ : Breakpoints).get_level ⟨95⟩) :=
  ⟨get_level_range_and_mono.1 ⟨⟨10⟩, ⟨13⟩, ⟨94⟩, ⟨97⟩⟩ ⟨20⟩,
   get_level_range_and_mono.2 ⟨⟨10⟩, ⟨13⟩, ⟨94⟩, ⟨97⟩⟩ ⟨20⟩ ⟨95⟩ (by decide)⟩

/-- Models `notify_rust::Urgency`. -/
inductive Urgency where
  | Low
  | Normal
  | Critical
deriving DecidableEq, Repr

/-- Models a `notify_rust::Notification` as the fields the program sets:
summary, body, urgency and timeout in milliseconds. A `none` urgency or
timeout means the builder never set it and the library default applies. -/
structure Notification where
  summary : String
  body : String
  urgency : Option Urgency
  timeout : Option Int
deriving DecidableEq, Repr

/-- Models `Notification::new()`: nothing set yet. -/
def Notification.new : Notification :=
  ⟨"", "", none, none⟩

/-- Embeds `fmt::Display for BatteryStatus` from `src/battery/status.rs`
lines 15-25. -/
def BatteryStatus.display : BatteryStatus → String
  | .Unknown _ => "Battery is Unknown"
  | .Critical => "Battery is Critical"
  | .Low => "Battery is almost Empty"
  | .High => "Battery is almost Full"
  | .Full => "Battery is Full"

/-- The `TIMEOUT` constant of `From<BatteryStatus> for Notification` in
`src/battery/status.rs` line 29. -/
def TIMEOUT : Int := 5000

/-- Embeds `From<BatteryStatus> for Notification` from
`src/battery/status.rs` lines 27-53: the summary is always set from the
status display; `Unknown` with a detail also sets the body; `Unknown` and
`Critical` get critical urgency and timeout 0 (never auto-dismiss); `Low`
and `Full` get critical urgency and the fixed `TIMEOUT`; every other
status (only `High` is possible) falls through the `_ => {}` arm and sets
neither urgency nor timeout. -/
def notificationFrom (status : BatteryStatus) : Notification :=
  let notification := { Notification.new with summary := status.display }
  match status with
  | .Unknown (some e) =>
      { notification with
          body := e, urgency := some .Critical, timeout := some 0 }
  | .Unknown none | .Critical =>
      { notification with urgency := some .Critical, timeout := some 0 }
  | .Low | .Full =>
      { notification with urgency := some .Critical, timeout := some TIMEOUT }
  | _ => notification

/-- Embeds `fmt::Display for ValidationError` from `src/validate.rs`
lines 20-29. -/
def ValidationError.display : ValidationError → String
  | .GreaterThanZero => "must be greater than zero"
  | .Max m => "cannot be greater than " ++ toString m
  | .Order l r =>
      "left value (" ++ toString l ++ ") must be less than right value (" ++
        toString r ++ ")"
  | .Required name => "property \x27" ++ name ++ "\x27 is required"

/-- Embeds `fmt::Display for Error` from `src/error.rs` lines 21-29. -/
def Error.display : Error → String
  | .Io e => "I/O Error: " ++ e
  | .Parse e => "Parsing Error: " ++ e
  | .Validation e => "Validation Error: " ++ e.display

/-- Modelled from the spec: the conversion of a per-tick read failure
into a notification (the `From` conversion used at `Err(e) => Some(e.into())`
in `src/battery/watcher.rs` line 96 is not part of the sources under
`src/`). Spec section 4.5 step 3: emit `Status::Unknown` carrying the
failure detail. -/
def notificationFromError (e : Error) : Notification :=
  notificationFrom (.Unknown (some e.display))

/-- Embeds `Config` from `src/battery/watcher.rs`; the polling interval
duration is modelled in milliseconds. -/
structure Config where
  battery_file : String
  breakpoints : Breakpoints
  interval : Nat
deriving DecidableEq, Repr

/-- Embeds `Watcher` from `src/battery/watcher.rs`. -/
structure Watcher where
  config : Config
  state : BatteryLevel
deriving DecidableEq, Repr

/-- Embeds `Watcher::new` from `src/battery/watcher.rs` lines 48-55:
the state starts at the default level, `Unknown`. -/
def Watcher.new (config : Config) : Watcher :=
  { config := config, state := BatteryLevel.default }

/-- Embeds `Watcher::update` from `src/battery/watcher.rs` lines 68-87,
with the I/O of `config.read_percentage()` made explicit as the
`readResult` argument: on success classify the percentage, compute the
transition against the pre-update state, store the new level and return
the optional status; on failure force the state to `Unknown` and return
the error. -/
def Watcher.update (w : Watcher) (readResult : Except Error Percentage) :
    Watcher × Except Error (Option BatteryStatus) :=
  match readResult with
  | .ok percentage =>
      let level := w.config.breakpoints.get_level percentage
      let status := w.state.transition level
      ({ w with state := level }, .ok status)
  | .error e => ({ w with state := .Unknown }, .error e)

/-- Embeds `Iterator::next` for `Watcher` from `src/battery/watcher.rs`
lines 90-99: a successful update maps the optional status into a
notification; a failed update always yields a notification built from the
error. -/
def Watcher.next (w : Watcher) (readResult : Except Error Percentage) :
    Watcher × Option Notification :=
  let result := w.update readResult
  (result.1,
    match result.2 with
    | .ok status => status.bind (fun s => some (notificationFrom s))
    | .error e => some (notificationFromError e))

/-- Runs `Watcher.next` over a list of read results, collecting the
notification emitted by each consecutive tick. -/
def Watcher.ticks (w : Watcher) (reads : List (Except Error Percentage)) :
    Watcher × List (Option Notification) :=
  match reads with
  | [] => (w, [])
  | r :: rs =>
      let step := w.next r
      let rest := step.1.ticks rs
      (rest.1, step.2 :: rest.2)

/-- Counterexample to C7: `Status::High` is not timed like Low and Full —
it falls through the `_ => {}` arm, so its notification has no timeout
set at all, while Low does get the fixed `TIMEOUT`. -/
theorem notification_high_not_timed :
    (notificationFrom .High).timeout ≠ some TIMEOUT ∧
    (notificationFrom .High).timeout = none ∧
    (notificationFrom .Low).timeout = some TIMEOUT := by
  refine ⟨?_, rfl, rfl⟩
  decide

/-- C7 (amended): Unknown and Critical notifications are sticky (critical
urgency, timeout 0 disabling auto-dismiss); Low and Full are timed with
the fixed `TIMEOUT` dismiss delay and critical urgency; High falls
through the default arm and receives neither an explicit urgency nor a
timeout; an Unknown status carrying a detail string places that detail in
the notification body. -/
theorem notification_shaping :
    notificationFrom (.Unknown none) =
      ⟨"Battery is Unknown", "", some .Critical, some 0⟩ ∧
    (∀ s : String, notificationFrom (.Unknown (some s)) =
      ⟨"Battery is Unknown", s, some .Critical, some 0⟩) ∧
    notificationFrom .Critical =
      ⟨"Battery is Critical", "", some .Critical, some 0⟩ ∧
    notificationFrom .Low =
      ⟨"Battery is almost Empty", "", some .Critical, some TIMEOUT⟩ ∧
    notificationFrom .Full =
      ⟨"Battery is Full", "", some .Critical, some TIMEOUT⟩ ∧
    notificationFrom .High =
      ⟨"Battery is almost Full", "", none, none⟩ := by
  refine ⟨rfl, ?_, rfl, rfl, rfl, rfl⟩
  intro s
  rfl

/-- C9: on a successful read, one tick classifies the fresh percentage
via the configured breakpoints into a level, emits exactly the optional
status computed by `transition` against the pre-update state, and stores
that level as the new state. -/
theorem watcher_update_success :
    ∀ (w : Watcher) (p : Percentage),
      w.update (.ok p) =
        ({ w with state := w.config.breakpoints.get_level p },
          .ok (w.state.transition (w.config.breakpoints.get_level p))) := by
  intro w p
  rfl

/-- C8: on a failed read a tick forces the stored level to `Unknown`
unconditionally — in particular also when it already was `Unknown` — and
the iterator emits a notification of `Status::Unknown` carrying the
failure detail; consequently every tick of a run of consecutive failures
emits such a notification. -/
theorem watcher_failure_forces_unknown :
    (∀ (w : Watcher) (e : Error),
      (w.update (.error e)).1.state = .Unknown ∧
      (w.update (.error e)).2 = .error e ∧
      (w.next (.error e)).1.state = .Unknown ∧
      (w.next (.error e)).2 =
        some (notificationFrom (.Unknown (some e.display)))) ∧
    (∀ (w : Watcher) (es : List Error),
      (w.ticks (es.map .error)).2 =
        es.map (fun e => some (notificationFrom (.Unknown (some e.display))))) := by
  constructor
  · intro w e
    exact ⟨rfl, rfl, rfl, rfl⟩
  · intro w es
    induction es generalizing w with
    | nil => rfl
    | cons e es ih =>
        simp only [List.map, Watcher.ticks]
        exact congrArg _ (ih _)
